import Mathlib

/-!
Shallow embedding of the gh-CLI wrapper server (`src/github.rs`):
the command executor `run_gh_command` and the nine tool handlers of
`GitHubService`, together with the argument-vector builders each handler
inlines.  The interaction with the operating system is abstracted by a
`LaunchBehavior`: a function from the argument vector to either a launch
error message (the `Err(e)` branch of `Command::output()`) or the
launched process's exit flag and captured streams.
-/

/-- Exit flag and captured streams of a successfully launched external
process (stdout/stderr already decoded, mirroring `String::from_utf8_lossy`). -/
structure ProcOutput where
  exitSuccess : Bool
  stdout : String
  stderr : String
deriving Repr, DecidableEq

/-- Behavior of the operating system when asked to launch `gh` with a given
argument vector: `Except.error e` models the `Err(e)` branch of
`Command::output()` (launch failure), `Except.ok out` a launched process. -/
def LaunchBehavior : Type := List String → Except String ProcOutput

/-- Rust struct `CommandResult` from `src/github.rs`: success flag, captured stdout,
optional error text. -/
structure CommandResult where
  success : Bool
  output : String
  error : Option String
deriving Repr, DecidableEq

/-- Embedding of `run_gh_command` from `src/github.rs`: on a launched process, `success`
is the exit flag, `output` the stdout, `error` the stderr exactly when the
exit was unsuccessful; on a launch failure, a failed result with empty
output and a local description of the launch error. -/
def run_gh_command (args : List String) (launch : LaunchBehavior) : CommandResult :=
  match launch args with
  | Except.ok out =>
      { success := out.exitSuccess
        output := out.stdout
        error := if !out.exitSuccess then some out.stderr else none }
  | Except.error e =>
      { success := false
        output := ""
        error := some ("Failed to execute command: " ++ e) }

/-- Rust struct `RepoParam` from `src/github.rs`. -/
structure RepoParam where
  owner : String
  repo : String
deriving Repr, DecidableEq

/-- Rust struct `CreateIssueParam` from `src/github.rs`. -/
structure CreateIssueParam where
  title : String
  body : Option String
  repo : Option String
deriving Repr, DecidableEq

/-- Rust struct `CreatePRParam` from `src/github.rs`. -/
structure CreatePRParam where
  title : String
  body : Option String
  base : String
  head : String
  repo : Option String
deriving Repr, DecidableEq

/-- Rust struct `CloneRepoParam` from `src/github.rs`. -/
structure CloneRepoParam where
  repo : String
  directory : Option String
deriving Repr, DecidableEq

/-- Client-facing response of one tool call: either
`CallToolResult::success(vec![Content::text(output)])` or
`McpError::internal_error(summary, Some(json!(\x7b"error": context\x7d)))`. -/
inductive ToolResponse where
  | success (text : String)
  | error (summary : String) (context : String)
deriving Repr, DecidableEq

/-- Result of one dispatched call: the client-facing response and the new
value of the shared `last_result` cell after the handler's overwrite. -/
structure DispatchResult where
  response : ToolResponse
  newState : Option CommandResult
deriving Repr, DecidableEq

/-- The response-shaping pattern every handler except `auth_status` repeats:
`if result.success { Ok(success(output)) } else
{ Err(internal_error(msg, json!(\x7b"error": result.error.unwrap_or_default()\x7d))) }`. -/
def shapeResponse (failMsg : String) (result : CommandResult) : ToolResponse :=
  if result.success then ToolResponse.success result.output
  else ToolResponse.error failMsg (result.error.getD "")

/-- Argument vector built by `list_repos`. -/
def list_repos_args : List String :=
  ["repo", "list", "--json", "name,description,url"]

/-- Argument vector built by `repo_view`. -/
def repo_view_args (param : RepoParam) : List String :=
  ["repo", "view", param.owner ++ "/" ++ param.repo, "--json",
   "name,description,url,stars,forks,watchers"]

/-- Argument vector built by `list_issues`. -/
def list_issues_args (param : RepoParam) : List String :=
  ["issue", "list", "--repo", param.owner ++ "/" ++ param.repo, "--json",
   "number,title,state,url"]

/-- Argument vector built by `create_issue`: `issue create`, then
`--repo` with its value only when present, then `--title` and the title,
then `--body` with its value only when present. -/
def create_issue_args (param : CreateIssueParam) : List String :=
  ["issue", "create"]
    ++ (match param.repo with
        | some r => ["--repo", r]
        | none => [])
    ++ ["--title", param.title]
    ++ (match param.body with
        | some b => ["--body", b]
        | none => [])

/-- Argument vector built by `list_prs`. -/
def list_prs_args (param : RepoParam) : List String :=
  ["pr", "list", "--repo", param.owner ++ "/" ++ param.repo, "--json",
   "number,title,state,url"]

/-- Argument vector built by `create_pr`: `pr create`, then `--repo` with
its value only when present, then `--title` and the title, then `--body`
with its value only when present, then `--base` and the base, then
`--head` and the head. -/
def create_pr_args (param : CreatePRParam) : List String :=
  ["pr", "create"]
    ++ (match param.repo with
        | some r => ["--repo", r]
        | none => [])
    ++ ["--title", param.title]
    ++ (match param.body with
        | some b => ["--body", b]
        | none => [])
    ++ ["--base", param.base]
    ++ ["--head", param.head]

/-- Argument vector built by `clone_repo`: `repo clone`, the repository,
then the directory only when present. -/
def clone_repo_args (param : CloneRepoParam) : List String :=
  ["repo", "clone", param.repo]
    ++ (match param.directory with
        | some d => [d]
        | none => [])

/-- Models Rust's `char::is_whitespace`: true exactly for the code points
with the Unicode White_Space property (U+0009..U+000D, U+0020, U+0085,
U+00A0, U+1680, U+2000..U+200A, U+2028, U+2029, U+202F, U+205F, U+3000). -/
def isRustWhitespace (c : Char) : Bool :=
  c.toNat = 0x09 || c.toNat = 0x0A || c.toNat = 0x0B || c.toNat = 0x0C ||
  c.toNat = 0x0D || c.toNat = 0x20 || c.toNat = 0x85 || c.toNat = 0xA0 ||
  c.toNat = 0x1680 || (0x2000 ≤ c.toNat && c.toNat ≤ 0x200A) ||
  c.toNat = 0x2028 || c.toNat = 0x2029 || c.toNat = 0x202F ||
  c.toNat = 0x205F || c.toNat = 0x3000

/-- Auxiliary splitter: accumulates the characters of the current word
(in reverse) and emits a word at each Unicode-whitespace boundary, never
emitting an empty word. -/
def splitWhitespaceAux : List Char → List Char → List String
  | [], acc => if acc.isEmpty then [] else [String.mk acc.reverse]
  | c :: cs, acc =>
      if isRustWhitespace c then
        if acc.isEmpty then splitWhitespaceAux cs []
        else String.mk acc.reverse :: splitWhitespaceAux cs []
      else splitWhitespaceAux cs (c :: acc)

/-- Models Rust's `str::split_whitespace` as used by `run_command`:
the string is split at maximal runs of Unicode White_Space characters
(per `isRustWhitespace`) and the non-empty words are returned in order. -/
def split_whitespace (s : String) : List String :=
  splitWhitespaceAux s.data []

/-- Argument vector built by `run_command`:
`command.split_whitespace().map(|s| s.to_string()).collect()`. -/
def run_command_args (command : String) : List String :=
  split_whitespace command

/-- Argument vector built by `auth_status`. -/
def auth_status_args : List String :=
  ["auth", "status"]

/-- Handler `list_repos`: runs the command, overwrites `last_result`,
shapes the response with summary "Failed to get repository list". -/
def list_repos (_state : Option CommandResult) (launch : LaunchBehavior) : DispatchResult :=
  let result := run_gh_command list_repos_args launch
  { response := shapeResponse "Failed to get repository list" result
    newState := some result }

/-- Handler `repo_view`, summary "Failed to get repository information". -/
def repo_view (param : RepoParam) (_state : Option CommandResult)
    (launch : LaunchBehavior) : DispatchResult :=
  let result := run_gh_command (repo_view_args param) launch
  { response := shapeResponse "Failed to get repository information" result
    newState := some result }

/-- Handler `list_issues`, summary "Failed to get issues list". -/
def list_issues (param : RepoParam) (_state : Option CommandResult)
    (launch : LaunchBehavior) : DispatchResult :=
  let result := run_gh_command (list_issues_args param) launch
  { response := shapeResponse "Failed to get issues list" result
    newState := some result }

/-- Handler `create_issue`, summary "Failed to create issue". -/
def create_issue (param : CreateIssueParam) (_state : Option CommandResult)
    (launch : LaunchBehavior) : DispatchResult :=
  let result := run_gh_command (create_issue_args param) launch
  { response := shapeResponse "Failed to create issue" result
    newState := some result }

/-- Handler `list_prs`, summary "Failed to get pull requests list". -/
def list_prs (param : RepoParam) (_state : Option CommandResult)
    (launch : LaunchBehavior) : DispatchResult :=
  let result := run_gh_command (list_prs_args param) launch
  { response := shapeResponse "Failed to get pull requests list" result
    newState := some result }

/-- Handler `create_pr`, summary "Failed to create pull request". -/
def create_pr (param : CreatePRParam) (_state : Option CommandResult)
    (launch : LaunchBehavior) : DispatchResult :=
  let result := run_gh_command (create_pr_args param) launch
  { response := shapeResponse "Failed to create pull request" result
    newState := some result }

/-- Handler `clone_repo`, summary "Failed to clone repository". -/
def clone_repo (param : CloneRepoParam) (_state : Option CommandResult)
    (launch : LaunchBehavior) : DispatchResult :=
  let result := run_gh_command (clone_repo_args param) launch
  { response := shapeResponse "Failed to clone repository" result
    newState := some result }

/-- Handler `run_command`: splits the free-form text on whitespace and
runs the tokens verbatim; summary "Failed to execute command". -/
def run_command (command : String) (_state : Option CommandResult)
    (launch : LaunchBehavior) : DispatchResult :=
  let result := run_gh_command (run_command_args command) launch
  { response := shapeResponse "Failed to execute command" result
    newState := some result }

/-- Handler `auth_status`: runs `auth status`, overwrites `last_result`,
and unconditionally returns a success response carrying the output. -/
def auth_status (_state : Option CommandResult) (launch : LaunchBehavior) : DispatchResult :=
  let result := run_gh_command auth_status_args launch
  { response := ToolResponse.success result.output
    newState := some result }

/-- The typed input of one of the nine operations. -/
inductive OperationRequest where
  | listRepos
  | repoView (param : RepoParam)
  | listIssues (param : RepoParam)
  | createIssue (param : CreateIssueParam)
  | listPRs (param : RepoParam)
  | createPR (param : CreatePRParam)
  | cloneRepo (param : CloneRepoParam)
  | runCommand (command : String)
  | authStatus
deriving Repr, DecidableEq

/-- The argument vector a given request makes the dispatcher build. -/
def requestArgs : OperationRequest → List String
  | OperationRequest.listRepos => list_repos_args
  | OperationRequest.repoView p => repo_view_args p
  | OperationRequest.listIssues p => list_issues_args p
  | OperationRequest.createIssue p => create_issue_args p
  | OperationRequest.listPRs p => list_prs_args p
  | OperationRequest.createPR p => create_pr_args p
  | OperationRequest.cloneRepo p => clone_repo_args p
  | OperationRequest.runCommand c => run_command_args c
  | OperationRequest.authStatus => auth_status_args

/-- The dispatcher: routes a request to its handler. -/
def dispatch (req : OperationRequest) (state : Option CommandResult)
    (launch : LaunchBehavior) : DispatchResult :=
  match req with
  | OperationRequest.listRepos => list_repos state launch
  | OperationRequest.repoView p => repo_view p state launch
  | OperationRequest.listIssues p => list_issues p state launch
  | OperationRequest.createIssue p => create_issue p state launch
  | OperationRequest.listPRs p => list_prs p state launch
  | OperationRequest.createPR p => create_pr p state launch
  | OperationRequest.cloneRepo p => clone_repo p state launch
  | OperationRequest.runCommand c => run_command c state launch
  | OperationRequest.authStatus => auth_status state launch

/-- A launch behavior in which the process starts and fails with "boom"
on stderr, used for concrete evaluations. -/
def stderrBoom : LaunchBehavior :=
  fun _ => Except.ok { exitSuccess := false, stdout := "", stderr := "boom" }

/-! ## Helper lemmas -/

theorem run_gh_error_isSome (args : List String) (launch : LaunchBehavior) :
    (run_gh_command args launch).error.isSome = !(run_gh_command args launch).success := by
  unfold run_gh_command
  cases launch args with
  | ok out => cases h : out.exitSuccess <;> simp [h]
  | error e => simp

theorem shapeResponse_eq_error (msg : String) (r : CommandResult) (sm ctx : String)
    (h : shapeResponse msg r = ToolResponse.error sm ctx) :
    r.success = false ∧ sm = msg ∧ ctx = r.error.getD "" := by
  unfold shapeResponse at h
  by_cases hs : r.success = true
  · simp [hs] at h
  · rw [if_neg hs] at h
    injection h with h1 h2
    exact ⟨by simpa using hs, h1.symm, h2.symm⟩

theorem shaped_error_context (msg : String) (args : List String) (launch : LaunchBehavior)
    (sm ctx : String)
    (h : shapeResponse msg (run_gh_command args launch) = ToolResponse.error sm ctx) :
    (run_gh_command args launch).error = some ctx ∧
    ctx = (run_gh_command args launch).error.getD "" := by
  obtain ⟨hs, -, hctx⟩ := shapeResponse_eq_error msg _ sm ctx h
  have hi := run_gh_error_isSome args launch
  rw [hs] at hi
  cases he : (run_gh_command args launch).error with
  | none => rw [he] at hi; simp at hi
  | some d =>
      rw [he] at hctx
      simp only [Option.getD_some] at hctx
      subst hctx
      exact ⟨rfl, rfl⟩

theorem splitWhitespaceAux_tokens : ∀ (l acc : List Char),
    (∀ c ∈ acc, isRustWhitespace c = false) →
    ∀ t ∈ splitWhitespaceAux l acc, t ≠ "" ∧ ∀ c ∈ t.data, isRustWhitespace c = false := by
  intro l
  induction l with
  | nil =>
      intro acc hacc t ht
      unfold splitWhitespaceAux at ht
      by_cases he : acc.isEmpty
      · simp [he] at ht
      · rw [if_neg he] at ht
        rw [List.mem_singleton] at ht
        subst ht
        refine ⟨?_, ?_⟩
        · intro hc
          have hd : acc.reverse = ([] : List Char) := congrArg String.data hc
          rw [List.reverse_eq_nil_iff] at hd
          rw [hd] at he
          exact he rfl
        · intro c hc
          have hd : (String.mk acc.reverse).data = acc.reverse := rfl
          rw [hd, List.mem_reverse] at hc
          exact hacc c hc
  | cons c cs ih =>
      intro acc hacc t ht
      unfold splitWhitespaceAux at ht
      by_cases hw : isRustWhitespace c
      · rw [if_pos hw] at ht
        by_cases he : acc.isEmpty
        · rw [if_pos he] at ht
          exact ih [] (by simp) t ht
        · rw [if_neg he] at ht
          rcases List.mem_cons.mp ht with h1 | h2
          · subst h1
            refine ⟨?_, ?_⟩
            · intro hc
              have hd : acc.reverse = ([] : List Char) := congrArg String.data hc
              rw [List.reverse_eq_nil_iff] at hd
              rw [hd] at he
              exact he rfl
            · intro x hx
              have hd : (String.mk acc.reverse).data = acc.reverse := rfl
              rw [hd, List.mem_reverse] at hx
              exact hacc x hx
          · exact ih [] (by simp) t h2
      · rw [if_neg hw] at ht
        refine ih (c :: acc) ?_ t ht
        intro x hx
        rcases List.mem_cons.mp hx with h1 | h2
        · subst h1; simpa using hw
        · exact hacc x h2

theorem split_whitespace_tokens (s : String) :
    ∀ t ∈ split_whitespace s, t ≠ "" ∧ ∀ c ∈ t.data, isRustWhitespace c = false :=
  splitWhitespaceAux_tokens s.data [] (by simp)

theorem splitWhitespaceAux_nil_of_all_ws : ∀ l : List Char,
    (∀ c ∈ l, isRustWhitespace c = true) → splitWhitespaceAux l [] = [] := by
  intro l
  induction l with
  | nil => intro _; rfl
  | cons c cs ih =>
      intro h
      have hc : isRustWhitespace c = true := h c (by simp)
      unfold splitWhitespaceAux
      rw [if_pos hc]
      rw [if_pos (by rfl : ([] : List Char).isEmpty = true)]
      exact ih (fun x hx => h x (by simp [hx]))

/-! ## Claim theorems -/

/-- C1: for every invocation of `run_gh_command`, the outcome's `error`
field is `some` if and only if its `success` flag is `false`: a successful
exit gives `error = none`, a non-zero exit or a launch failure gives
`error = some`. -/
theorem C1_errorDetail_iff_not_succeeded (args : List String) (launch : LaunchBehavior) :
    (run_gh_command args launch).error.isSome = true ↔
      (run_gh_command args launch).success = false := by
  rw [run_gh_error_isSome args launch]
  simp

/-- C1 witness: at the concrete failing behavior `stderrBoom`, the error
field of the outcome is present. -/
theorem C1_errorDetail_iff_not_succeeded_witness :
    (run_gh_command [] stderrBoom).error.isSome = true :=
  (C1_errorDetail_iff_not_succeeded [] stderrBoom).mpr rfl

/-- C2: the `create_pr` argument vector is built in the fixed order
`pr create [--repo r] --title t [--body b] --base base --head head`; at
title="t", base="main", head="feat", body absent, repo="o/r" it is exactly
`["pr","create","--repo","o/r","--title","t","--base","main","--head","feat"]`;
absent optional fields contribute no tokens at all, and likewise for
`create_issue` (body, repo) and `clone_repo` (directory). -/
theorem C2_argument_vector_construction :
    create_pr_args { title := "t", body := none, base := "main", head := "feat", repo := some "o/r" } =
      ["pr", "create", "--repo", "o/r", "--title", "t", "--base", "main", "--head", "feat"] ∧
    (∀ t b bs hd r, create_pr_args { title := t, body := some b, base := bs, head := hd, repo := some r } =
      ["pr", "create", "--repo", r, "--title", t, "--body", b, "--base", bs, "--head", hd]) ∧
    (∀ t b bs hd, create_pr_args { title := t, body := some b, base := bs, head := hd, repo := none } =
      ["pr", "create", "--title", t, "--body", b, "--base", bs, "--head", hd]) ∧
    (∀ t bs hd r, create_pr_args { title := t, body := none, base := bs, head := hd, repo := some r } =
      ["pr", "create", "--repo", r, "--title", t, "--base", bs, "--head", hd]) ∧
    (∀ t bs hd, create_pr_args { title := t, body := none, base := bs, head := hd, repo := none } =
      ["pr", "create", "--title", t, "--base", bs, "--head", hd]) ∧
    (∀ t b r, create_issue_args { title := t, body := some b, repo := some r } =
      ["issue", "create", "--repo", r, "--title", t, "--body", b]) ∧
    (∀ t b, create_issue_args { title := t, body := some b, repo := none } =
      ["issue", "create", "--title", t, "--body", b]) ∧
    (∀ t r, create_issue_args { title := t, body := none, repo := some r } =
      ["issue", "create", "--repo", r, "--title", t]) ∧
    (∀ t, create_issue_args { title := t, body := none, repo := none } =
      ["issue", "create", "--title", t]) ∧
    (∀ r d, clone_repo_args { repo := r, directory := some d } = ["repo", "clone", r, d]) ∧
    (∀ r, clone_repo_args { repo := r, directory := none } = ["repo", "clone", r]) :=
  ⟨rfl, fun _ _ _ _ _ => rfl, fun _ _ _ _ => rfl, fun _ _ _ _ => rfl, fun _ _ _ => rfl,
   fun _ _ _ => rfl, fun _ _ => rfl, fun _ _ => rfl, fun _ => rfl,
   fun _ _ => rfl, fun _ => rfl⟩

/-- C4: `auth_status` always returns a protocol-level success response
carrying the captured stdout of `gh auth status`, whatever the outcome's
success flag; it never produces an error response. -/
theorem C4_auth_status_always_success (st : Option CommandResult) (launch : LaunchBehavior) :
    (auth_status st launch).response =
      ToolResponse.success ((run_gh_command auth_status_args launch).output) :=
  rfl

/-- C5: when the external program cannot be launched, `run_gh_command`
returns `success = false`, empty output, and a non-empty local launch-failure
description carrying the fixed prefix "Failed to execute command: ". -/
theorem C5_launch_failure_outcome (args : List String) (launch : LaunchBehavior) (e : String)
    (h : launch args = Except.error e) :
    run_gh_command args launch =
      { success := false, output := "",
        error := some ("Failed to execute command: " ++ e) } ∧
    "Failed to execute command: " ++ e ≠ "" := by
  refine ⟨by unfold run_gh_command; rw [h], ?_⟩
  intro hc
  have hlen : ("Failed to execute command: " ++ e).length = 0 := by rw [hc]; rfl
  rw [String.length_append] at hlen
  have h27 : ("Failed to execute command: " : String).length = 27 := rfl
  omega

/-- C5 witness: a behavior in which the launch fails with a typical
missing-executable message yields exactly the described outcome. -/
theorem C5_launch_failure_outcome_witness :
    run_gh_command [] (fun _ => Except.error "No such file or directory (os error 2)") =
      { success := false, output := "",
        error := some ("Failed to execute command: " ++ "No such file or directory (os error 2)") } ∧
    "Failed to execute command: " ++ "No such file or directory (os error 2)" ≠ "" :=
  C5_launch_failure_outcome [] (fun _ => Except.error "No such file or directory (os error 2)")
    "No such file or directory (os error 2)" rfl

/-- C7: after every one of the nine operations, the shared last-result
state holds exactly the freshly produced outcome of that operation's
external invocation, for every prior state and every behavior. -/
theorem C7_overwrites_last_result (req : OperationRequest) (st : Option CommandResult)
    (launch : LaunchBehavior) :
    (dispatch req st launch).newState = some (run_gh_command (requestArgs req) launch) := by
  cases req <;> rfl

/-- C8: for every operation and fixed external behavior, the dispatched
result (response and new state alike) is independent of the shared state
and thus a deterministic function of the request and the behavior: two
runs with identical inputs and behavior, whatever states they start from,
produce identical responses. -/
theorem C8_deterministic_response (req : OperationRequest) (s1 s2 : Option CommandResult)
    (launch : LaunchBehavior) :
    dispatch req s1 launch = dispatch req s2 launch := by
  cases req <;> rfl

/-- C3 counterexample: on a failed invocation the `list_repos` summary is
"Failed to get repository list", not the claimed "failed to list
repositories". -/
theorem C3_summary_counterexample :
    (list_repos none stderrBoom).response =
      ToolResponse.error "Failed to get repository list" "boom" ∧
    ¬ (list_repos none stderrBoom).response =
      ToolResponse.error "failed to list repositories" "boom" := by
  exact ⟨rfl, by decide⟩

/-- C3 (amended): on a program-reported failure, the error summaries are
"Failed to get repository list" for `list_repos`, "Failed to get issues
list" for `list_issues`, and "Failed to get pull requests list" for
`list_prs`, each carrying the captured stderr as context. -/
theorem C3_list_failure_summaries (p : RepoParam) (st : Option CommandResult)
    (out : ProcOutput) (h : out.exitSuccess = false) :
    (list_repos st (fun _ => Except.ok out)).response =
      ToolResponse.error "Failed to get repository list" out.stderr ∧
    (list_issues p st (fun _ => Except.ok out)).response =
      ToolResponse.error "Failed to get issues list" out.stderr ∧
    (list_prs p st (fun _ => Except.ok out)).response =
      ToolResponse.error "Failed to get pull requests list" out.stderr := by
  refine ⟨?_, ?_, ?_⟩ <;>
    simp [list_repos, list_issues, list_prs, run_gh_command, shapeResponse, h]

/-- C3 witness: concrete failing behavior with stderr "boom". -/
theorem C3_list_failure_summaries_witness :
    (list_repos none (fun _ => Except.ok { exitSuccess := false, stdout := "", stderr := "boom" })).response =
      ToolResponse.error "Failed to get repository list" "boom" ∧
    (list_issues { owner := "o", repo := "r" } none
        (fun _ => Except.ok { exitSuccess := false, stdout := "", stderr := "boom" })).response =
      ToolResponse.error "Failed to get issues list" "boom" ∧
    (list_prs { owner := "o", repo := "r" } none
        (fun _ => Except.ok { exitSuccess := false, stdout := "", stderr := "boom" })).response =
      ToolResponse.error "Failed to get pull requests list" "boom" :=
  C3_list_failure_summaries { owner := "o", repo := "r" } none
    { exitSuccess := false, stdout := "", stderr := "boom" } rfl

/-- C6: `run_command` splits the free-form text on Unicode whitespace into
discrete tokens used verbatim as the argument vector; "pr list --repo o/r"
yields exactly the four tokens `["pr","list","--repo","o/r"]` (and those
tokens are the vector the executor receives), non-ASCII White_Space code
points such as U+000B and U+00A0 also separate tokens, and in general
every produced token is non-empty and contains no whitespace. -/
theorem C6_run_command_tokenization (st : Option CommandResult) (launch : LaunchBehavior) :
    run_command_args "pr list --repo o/r" = ["pr", "list", "--repo", "o/r"] ∧
    (run_command "pr list --repo o/r" st launch).newState =
      some (run_gh_command ["pr", "list", "--repo", "o/r"] launch) ∧
    run_command_args "pr\x0Blist" = ["pr", "list"] ∧
    run_command_args "pr list" = ["pr", "list"] ∧
    (∀ s t, t ∈ run_command_args s → t ≠ "" ∧ ∀ c ∈ t.data, isRustWhitespace c = false) := by
  have h1 : run_command_args "pr list --repo o/r" = ["pr", "list", "--repo", "o/r"] := by decide
  refine ⟨h1, ?_, by decide, by decide, fun s t ht => split_whitespace_tokens s t ht⟩
  simp [run_command, h1]

/-- C6 witness: the first token produced from "pr list --repo o/r" is a
non-empty word without whitespace. -/
theorem C6_run_command_tokenization_witness :
    ("pr" : String) ≠ "" ∧ ∀ c ∈ ("pr" : String).data, isRustWhitespace c = false :=
  (C6_run_command_tokenization none stderrBoom).2.2.2.2 "pr list --repo o/r" "pr" (by decide)

/-- C9: a `run_command` input that is empty or all whitespace produces an
empty argument vector, and the external program is still invoked with it:
the fresh outcome of running zero arguments is stored and shaped into the
response, with no prior rejection. -/
theorem C9_whitespace_only_command (cmd : String)
    (h : ∀ c ∈ cmd.data, isRustWhitespace c = true)
    (st : Option CommandResult) (launch : LaunchBehavior) :
    run_command_args cmd = [] ∧
    (run_command cmd st launch).newState = some (run_gh_command [] launch) ∧
    (run_command cmd st launch).response =
      shapeResponse "Failed to execute command" (run_gh_command [] launch) := by
  have h1 : run_command_args cmd = [] := splitWhitespaceAux_nil_of_all_ws cmd.data h
  exact ⟨h1, by simp [run_command, h1], by simp [run_command, h1]⟩

/-- C9 witness: the whitespace-only input " \x0B\t " (space, vertical
tab, tab, space) yields the empty argument vector and a real
invocation with zero arguments. -/
theorem C9_whitespace_only_command_witness :
    run_command_args " \x0B\t " = [] ∧
    (run_command " \x0B\t " none stderrBoom).newState = some (run_gh_command [] stderrBoom) ∧
    (run_command " \x0B\t " none stderrBoom).response =
      shapeResponse "Failed to execute command" (run_gh_command [] stderrBoom) :=
  C9_whitespace_only_command " \x0B\t " (by decide) none stderrBoom

/-- C10: whenever a dispatched call produces an error response, its context
is the outcome's actual captured error detail: the `error` field of the
fresh outcome is `some` of the context, so the `getD ""` fallback is never
the source of the context. -/
theorem C10_error_context_is_actual_detail (req : OperationRequest)
    (st : Option CommandResult) (launch : LaunchBehavior) (sm ctx : String)
    (h : (dispatch req st launch).response = ToolResponse.error sm ctx) :
    (run_gh_command (requestArgs req) launch).error = some ctx ∧
    ctx = (run_gh_command (requestArgs req) launch).error.getD "" := by
  cases req with
  | listRepos => exact shaped_error_context "Failed to get repository list" list_repos_args launch sm ctx h
  | repoView p => exact shaped_error_context "Failed to get repository information" (repo_view_args p) launch sm ctx h
  | listIssues p => exact shaped_error_context "Failed to get issues list" (list_issues_args p) launch sm ctx h
  | createIssue p => exact shaped_error_context "Failed to create issue" (create_issue_args p) launch sm ctx h
  | listPRs p => exact shaped_error_context "Failed to get pull requests list" (list_prs_args p) launch sm ctx h
  | createPR p => exact shaped_error_context "Failed to create pull request" (create_pr_args p) launch sm ctx h
  | cloneRepo p => exact shaped_error_context "Failed to clone repository" (clone_repo_args p) launch sm ctx h
  | runCommand c => exact shaped_error_context "Failed to execute command" (run_command_args c) launch sm ctx h
  | authStatus => simp [dispatch, auth_status] at h

/-- C10 witness: the failing `list_repos` call at `stderrBoom` carries the
actual stderr "boom" as context. -/
theorem C10_error_context_is_actual_detail_witness :
    (run_gh_command (requestArgs OperationRequest.listRepos) stderrBoom).error = some "boom" ∧
    "boom" = (run_gh_command (requestArgs OperationRequest.listRepos) stderrBoom).error.getD "" :=
  C10_error_context_is_actual_detail OperationRequest.listRepos none stderrBoom
    "Failed to get repository list" "boom" (by decide)
